import Mathlib

/-!
Verification of the Dynamic Labs EVM wallet client (`src/src/index.ts`).

The repository is an orchestration layer over the external
`@dynamic-labs-wallet` SDK: the threshold-signature core (DKG account
creation, distributed signing, signature verification) is implemented by the
SDK and is not present under `src/`.  Definitions whose doc comment starts
with `Modelled from the spec:` embed that missing core, faithful to the
specification's contracts (§4.2, §4.3); every other definition is a direct
shallow embedding of the TypeScript source.  Console output is modelled as a
list of log strings, thrown/caught exceptions as `Except`, and the calls an
operation makes to external collaborators as a list of `Event`s.
-/

namespace DynamicWallet

/-- A client session: the API credential plus the environment (tenant)
identifier it was authenticated for (spec §3 `Session`). -/
structure Session where
  credential : String
  environmentId : String
deriving DecidableEq

/-- A wallet account as held by the threshold-signing service (spec §3
`WalletAccount`): derived address, opaque wallet id, public key, the
environment it was created in, the combined key material (opaque, as a
number), and the optional encryption password set at creation. -/
structure WalletAccount where
  accountAddress : String
  walletId : String
  publicKeyHex : String
  environmentId : String
  keyId : Nat
  password : Option String
deriving DecidableEq

/-- A local key share held by the Share Store (spec §3 `ShareRecord`). -/
structure ShareRecord where
  walletId : String
  shareMaterial : Nat
  backedUp : Bool
deriving DecidableEq

/-- The state visible to one client: which API tokens the identity service
accepts, the accounts known to the threshold-signing service, this client's
Share Store, and a freshness counter for DKG key generation. -/
structure ServiceState where
  validTokens : List String
  accounts : List WalletAccount
  shareStore : List ShareRecord
  nextKey : Nat
deriving DecidableEq

/-- A session is valid when its credential is still accepted by the identity
service. -/
def sessionValid (st : ServiceState) (sess : Session) : Bool :=
  st.validTokens.contains sess.credential

/-- Look up the account registered for an address. -/
def findAccount (st : ServiceState) (accountAddress : String) : Option WalletAccount :=
  st.accounts.find? (fun a => a.accountAddress == accountAddress)

/-- Does the Share Store hold a ShareRecord for this wallet id? -/
def hasShare (st : ServiceState) (walletId : String) : Bool :=
  st.shareStore.any (fun r => r.walletId == walletId)

/-- The Share Store holds no ShareRecord usable for this address: either no
account is registered for it, or the account's wallet id has no local share. -/
def noLocalShareFor (st : ServiceState) (accountAddress : String) : Bool :=
  match findAccount st accountAddress with
  | none => true
  | some acct => !(hasShare st acct.walletId)

/-- The address is environment-scoped to the session: if an account exists for
it, that account was created in the session's environment. -/
def envScoped (st : ServiceState) (sess : Session) (accountAddress : String) : Bool :=
  match findAccount st accountAddress with
  | none => true
  | some acct => acct.environmentId == sess.environmentId

/-- An opaque signature value: valid only against one account's combined key
material and one message. -/
structure Signature where
  keyId : Nat
  signedMsg : String
deriving DecidableEq

/-- SigningError kinds (spec §4.3). -/
inductive SigningError where
  | Unauthenticated
  | NoLocalShare
  | PasswordMismatch
  | CeremonyFailed
  | CounterpartyUnavailable
deriving DecidableEq

/-- Outcome of a `sign` call: the result surfaced to the caller, plus whether
the distributed signing ceremony was actually attempted. -/
structure SignOutcome where
  result : Except SigningError Signature
  ceremonyRan : Bool

/-- The signature produced by a completed ceremony for an account and
message. -/
def mkSig (acct : WalletAccount) (message : String) : Signature :=
  ⟨acct.keyId, message⟩

/-- The distributed signing ceremony with the counter-party share holder:
succeeds when the counter-party is reachable, else fails. Either way the
ceremony was run. -/
def runSigningCeremony (counterpartyUp : Bool) (acct : WalletAccount)
    (message : String) : SignOutcome :=
  if counterpartyUp then ⟨.ok (mkSig acct message), true⟩
  else ⟨.error .CeremonyFailed, true⟩

/-- Modelled from the spec: the Signing Coordinator `sign` contract (§4.3),
implemented by the external SDK's `evmClient.signMessage`, which is absent
from `src/`.  Preconditions checked in order before any ceremony: (a) the
session is valid and environment-scoped to the account; (b) a ShareRecord
exists locally for the address; (c) if the account was created with a
password, the supplied password matches. -/
def sign (st : ServiceState) (counterpartyUp : Bool) (sess : Session)
    (accountAddress message : String) (password : Option String) : SignOutcome :=
  if sessionValid st sess = false then ⟨.error .Unauthenticated, false⟩
  else
    match findAccount st accountAddress with
    | none => ⟨.error .NoLocalShare, false⟩
    | some acct =>
      if acct.environmentId ≠ sess.environmentId then ⟨.error .Unauthenticated, false⟩
      else if hasShare st acct.walletId = false then ⟨.error .NoLocalShare, false⟩
      else
        match acct.password with
        | none => runSigningCeremony counterpartyUp acct message
        | some p =>
          if password = some p then runSigningCeremony counterpartyUp acct message
          else ⟨.error .PasswordMismatch, false⟩

/-- Modelled from the spec: the Signing Coordinator `verify` contract (§4.3),
implemented by the SDK's `evmClient.verifyMessageSignature`, which is absent
from `src/`.  A pure, total function of public key material: true exactly when
the signature matches the account's combined key and the message. -/
def verify (st : ServiceState) (accountAddress message : String)
    (signature : Signature) : Bool :=
  match findAccount st accountAddress with
  | none => false
  | some acct => signature.keyId == acct.keyId && signature.signedMsg == message

/-- Threshold scheme selector, as in `@dynamic-labs-wallet/node`. -/
inductive ThresholdSignatureScheme where
  | TWO_OF_TWO
deriving DecidableEq

/-- CreationError kinds (spec §4.2). -/
inductive CreationError where
  | CeremonyAborted
  | DuplicateAccount
  | BackupFailed
deriving DecidableEq

/-- The successful result of account creation: the new account, the updated
state, and an optionally reported non-fatal condition (`BackupFailed`). -/
structure CreationOutcome where
  account : WalletAccount
  newState : ServiceState
  reported : Option CreationError

/-- Account address derived deterministically from the combined key. -/
def addrOfKey (k : Nat) : String := "0x" ++ toString k

/-- Wallet id minted for a fresh key. -/
def walletIdOfKey (k : Nat) : String := "wallet-" ++ toString k

/-- Public key hex derived from the combined key. -/
def pubKeyOfKey (k : Nat) : String := "04" ++ toString k

/-- Modelled from the spec: the Wallet Lifecycle Manager `createAccount`
contract (§4.2), implemented by the SDK's `evmClient.createWalletAccount`,
which is absent from `src/`.  Runs the DKG ceremony; on success inserts
exactly one ShareRecord into the Share Store and registers the account under
the session's environment; a backup-upload failure is reported as
`BackupFailed` alongside the still-usable account, with the share flagged
`backedUp := false`. -/
def createAccount (st : ServiceState) (counterpartyUp backupServiceUp : Bool)
    (sess : Session) (scheme : ThresholdSignatureScheme)
    (password : Option String) (backupEnabled : Bool) :
    Except CreationError CreationOutcome :=
  match scheme with
  | .TWO_OF_TWO =>
    if counterpartyUp = false then .error .CeremonyAborted
    else
      let k := st.nextKey
      let acct : WalletAccount :=
        { accountAddress := addrOfKey k
          walletId := walletIdOfKey k
          publicKeyHex := pubKeyOfKey k
          environmentId := sess.environmentId
          keyId := k
          password := password }
      let backedUp := backupEnabled && backupServiceUp
      let shr : ShareRecord :=
        { walletId := acct.walletId, shareMaterial := k, backedUp := backedUp }
      let st' : ServiceState :=
        { st with
          accounts := acct :: st.accounts
          shareStore := shr :: st.shareStore
          nextKey := k + 1 }
      .ok { account := acct
            newState := st'
            reported := if backupEnabled && !backupServiceUp then some .BackupFailed else none }

/-! ## Shallow embedding of `src/src/index.ts`

Each exported function of the source becomes a Lean function.  The process
environment variables become a `ProcEnv` value; `console.log`/`console.error`
output becomes a list of log strings; calls to external collaborators are
recorded as `Event`s; a `throw` that escapes the function is an
`Except.error` in the `result` field, and a `catch` that only logs is a
normal (`.ok`) return. -/

/-- The process environment variables the client reads. -/
structure ProcEnv where
  DYNAMIC_ENVIRONMENT_ID : String
  DYNAMIC_AUTH_TOKEN : String
deriving DecidableEq

/-- Calls made to external collaborators during an operation. -/
inductive Event where
  | authenticate (token environmentId : String)
  | dkgCeremony (walletId : String)
  | signCall (accountAddress message : String)
  | balanceQuery (address : String)
  | prepareRequest (account : String)
deriving DecidableEq

/-- What one embedded source function gives back: the value returned or the
exception propagated to the caller, the console output, and the external
calls made. -/
structure OpResult (ε α : Type) where
  result : Except ε α
  logs : List String
  events : List Event

/-- Embeds `authenticatedEvmClient` (index.ts lines 14-20): builds a client
for the configured environment and authenticates the configured API token,
yielding a fresh session; an authentication failure propagates. -/
def authenticatedEvmClient (env : ProcEnv) (st : ServiceState) :
    OpResult String Session :=
  let sess : Session :=
    { credential := env.DYNAMIC_AUTH_TOKEN
      environmentId := env.DYNAMIC_ENVIRONMENT_ID }
  if sessionValid st sess then
    { result := .ok sess
      logs := []
      events := [.authenticate env.DYNAMIC_AUTH_TOKEN env.DYNAMIC_ENVIRONMENT_ID] }
  else
    { result := .error "authentication failed"
      logs := []
      events := [.authenticate env.DYNAMIC_AUTH_TOKEN env.DYNAMIC_ENVIRONMENT_ID] }

/-- The parameter object `createNewWallet` passes to
`evmClient.createWalletAccount` (index.ts lines 27-34). -/
structure CreateWalletParams where
  thresholdSignatureScheme : ThresholdSignatureScheme
  password : String
  backUpToClientShareService : Bool
deriving DecidableEq

/-- The literal passed to `createWalletAccount`: scheme fixed to TWO_OF_TWO,
backup fixed on, and `password: password || "your-secure-password"` — the
JavaScript `||` substitutes the default when the argument is absent or is the
empty string (falsy). -/
def createWalletRequest (password : Option String) : CreateWalletParams :=
  { thresholdSignatureScheme := .TWO_OF_TWO
    password :=
      match password with
      | none => "your-secure-password"
      | some p => if p = "" then "your-secure-password" else p
    backUpToClientShareService := true }

/-- The wallet fields `createNewWallet` extracts and returns. -/
structure WalletInfo where
  accountAddress : String
  walletId : String
  publicKeyHex : String
deriving DecidableEq

/-- How `createNewWallet` can fail: the rethrown authentication error, or the
rethrown creation error from the SDK. -/
inductive CreateFailure where
  | auth (msg : String)
  | creation (e : CreationError)
deriving DecidableEq

/-- Embeds `createNewWallet` (index.ts lines 23-52): authenticates, calls
`createWalletAccount` with the fixed parameter object, logs the outcome, and
rethrows any error to the caller after logging it. -/
def createNewWallet (env : ProcEnv) (st : ServiceState)
    (counterpartyUp backupServiceUp : Bool) (password : Option String) :
    OpResult CreateFailure (WalletInfo × ServiceState) :=
  match authenticatedEvmClient env st with
  | { result := .error e, logs := ls, events := evs } =>
    { result := .error (.auth e)
      logs := ls ++ ["❌ Wallet creation failed: " ++ e]
      events := evs }
  | { result := .ok sess, logs := ls, events := evs } =>
    let params := createWalletRequest password
    match createAccount st counterpartyUp backupServiceUp sess
        params.thresholdSignatureScheme (some params.password)
        params.backUpToClientShareService with
    | .error e =>
      { result := .error (.creation e)
        logs := ls ++ ["EVM wallet creation error", "❌ Wallet creation failed"]
        events := evs ++ [.dkgCeremony (walletIdOfKey st.nextKey)] }
    | .ok o =>
      let walletInfo : WalletInfo :=
        { accountAddress := o.account.accountAddress
          walletId := o.account.walletId
          publicKeyHex := o.account.publicKeyHex }
      { result := .ok (walletInfo, o.newState)
        logs := ls ++
          (match o.reported with
           | some _ => ["EVM wallet creation error"]
           | none => []) ++
          ["✅ New wallet created successfully!",
           "📍 Address: " ++ walletInfo.accountAddress,
           "🆔 Wallet ID: " ++ walletInfo.walletId,
           "🔑 Public Key: " ++ walletInfo.publicKeyHex]
        events := evs ++ [.dkgCeremony o.account.walletId] }

/-- Embeds `checkWalletExists` (index.ts lines 73-91): queries the balance of
the address through the chain client; a query failure is wrapped in a generic
`Wallet verification failed: ...` error. -/
def checkWalletExists (balanceOf : String → Except String Nat)
    (walletAddress : String) : OpResult String Unit :=
  match balanceOf walletAddress with
  | .ok _ => { result := .ok (), logs := [], events := [.balanceQuery walletAddress] }
  | .error m =>
    { result := .error ("Wallet verification failed: " ++ m)
      logs := []
      events := [.balanceQuery walletAddress] }

/-- Embeds `initializeExistingWallet` (index.ts lines 55-70): authenticates,
verifies the wallet only through `checkWalletExists`, and rethrows any error
after logging it. -/
def initializeExistingWallet (env : ProcEnv) (st : ServiceState)
    (balanceOf : String → Except String Nat) (walletAddress : String) :
    OpResult String (Session × String) :=
  match authenticatedEvmClient env st with
  | { result := .error e, logs := ls, events := evs } =>
    { result := .error e
      logs := ls ++ ["❌ Failed to initialize wallet: " ++ e]
      events := evs }
  | { result := .ok sess, logs := ls, events := evs } =>
    match checkWalletExists balanceOf walletAddress with
    | { result := .error e, logs := ls2, events := evs2 } =>
      { result := .error e
        logs := ls ++ ["🔄 Initializing existing wallet: " ++ walletAddress] ++ ls2 ++
          ["❌ Failed to initialize wallet: " ++ e]
        events := evs ++ evs2 }
    | { result := .ok _, logs := ls2, events := evs2 } =>
      { result := .ok (sess, walletAddress)
        logs := ls ++ ["🔄 Initializing existing wallet: " ++ walletAddress] ++ ls2 ++
          ["✅ Wallet initialized successfully!"]
        events := evs ++ evs2 }

/-- Renders a signing error as the message of the thrown exception. -/
def describeSigningError : SigningError → String
  | .Unauthenticated => "Unauthenticated"
  | .NoLocalShare => "NoLocalShare"
  | .PasswordMismatch => "PasswordMismatch"
  | .CeremonyFailed => "CeremonyFailed"
  | .CounterpartyUnavailable => "CounterpartyUnavailable"

/-- Embeds `signMessage` (index.ts lines 138-170): builds the message, calls
the SDK `signMessage`, verifies the signature, and logs; the surrounding
`try`/`catch` swallows every error — the function always returns normally,
reporting failures only on the console. -/
def signMessage (st : ServiceState) (counterpartyUp : Bool) (sess : Session)
    (walletAddress password now : String) : OpResult SigningError Unit :=
  let message := "Hello from wallet " ++ walletAddress ++ " at " ++ now
  let o := sign st counterpartyUp sess walletAddress message (some password)
  match o.result with
  | .error e =>
    { result := .ok ()
      logs := ["❌ Message signing failed: " ++ describeSigningError e]
      events := [.signCall walletAddress message] }
  | .ok sig =>
    let isValid := verify st walletAddress message sig
    { result := .ok ()
      logs := ["✍️  Message signed: " ++ message,
               "🔏 Signature: " ++ sig.signedMsg,
               if isValid then "✅ Signature verification: Valid"
               else "✅ Signature verification: Invalid"]
      events := [.signCall walletAddress message] }

/-- Embeds `checkBalance` (index.ts lines 115-135): queries and logs the
balance; a failure is caught and only logged. -/
def checkBalance (balanceOf : String → Except String Nat)
    (walletAddress : String) : OpResult String Unit :=
  match balanceOf walletAddress with
  | .ok b =>
    { result := .ok ()
      logs := ["💰 Balance: " ++ toString b ++ " wei"]
      events := [.balanceQuery walletAddress] }
  | .error m =>
    { result := .ok ()
      logs := ["❌ Balance check failed: " ++ m]
      events := [.balanceQuery walletAddress] }

/-- Public chain state read by the chain client at preparation time. -/
structure ChainState where
  up : Bool
  gas : Nat
  gasPrice : Nat
deriving DecidableEq

/-- The unsigned transaction skeleton returned by
`prepareTransactionRequest`. -/
structure PreparedTx where
  toAddr : String
  value : Nat
  gas : Nat
  gasPrice : Nat
  account : String
deriving DecidableEq

/-- The chain client's `prepareTransactionRequest`: fills gas parameters from
current chain state; fails when the chain is unreachable. -/
def prepareTransactionRequest (chain : ChainState) (toAddr : String) (value : Nat)
    (account : String) : Except String PreparedTx :=
  if chain.up then
    .ok { toAddr := toAddr, value := value, gas := chain.gas
          gasPrice := chain.gasPrice, account := account }
  else .error "chain unavailable"

/-- `parseEther "0.001"` in wei. -/
def demoValueWei : Nat := 1000000000000000

/-- The null recipient used by the preparation demo. -/
def nullAddress : String := "0x0000000000000000000000000000000000000000"

/-- Embeds `prepareTransaction` (index.ts lines 173-208): builds the fixed
demo request (null recipient, 0.001 ETH), asks the chain client to prepare
it, and logs; a failure is caught and only logged.  It never calls the
signing coordinator and never touches wallet or share state. -/
def prepareTransaction (chain : ChainState) (st : ServiceState)
    (walletAddress : String) : OpResult String Unit × Option PreparedTx :=
  match prepareTransactionRequest chain nullAddress demoValueWei walletAddress with
  | .ok tx =>
    ({ result := .ok ()
       logs := ["📝 Transaction prepared: to " ++ tx.toAddr ++ " value " ++ toString tx.value,
                "ℹ️  Note: Transaction not sent - this is just preparation demo"]
       events := [.prepareRequest walletAddress] }, some tx)
  | .error m =>
    ({ result := .ok ()
       logs := ["❌ Transaction preparation failed: " ++ m]
       events := [.prepareRequest walletAddress] }, none)

/-- Embeds `performWalletOperations` (index.ts lines 94-112): authenticates,
then checks the balance, signs a message, and prepares a transaction; every
failure along the way — the authentication failure included — is caught and
only logged, so the function always returns normally. -/
def performWalletOperations (env : ProcEnv) (st : ServiceState)
    (counterpartyUp : Bool) (chain : ChainState)
    (balanceOf : String → Except String Nat)
    (walletAddress password now : String) : OpResult String Unit :=
  match authenticatedEvmClient env st with
  | { result := .error e, logs := ls, events := evs } =>
    { result := .ok ()
      logs := ["--- 💼 Wallet Operations ---"] ++ ls ++ ["❌ Wallet operations failed: " ++ e]
      events := evs }
  | { result := .ok sess, logs := ls, events := evs } =>
    let r1 := checkBalance balanceOf walletAddress
    let r2 := signMessage st counterpartyUp sess walletAddress password now
    let r3 := (prepareTransaction chain st walletAddress).1
    { result := .ok ()
      logs := ["--- 💼 Wallet Operations ---"] ++ ls ++ r1.logs ++ r2.logs ++ r3.logs
      events := evs ++ r1.events ++ r2.events ++ r3.events }

/-! ## Concrete fixtures used by witnesses and counterexamples -/

/-- A process environment with one configured token and environment. -/
def env0 : ProcEnv :=
  { DYNAMIC_ENVIRONMENT_ID := "env-1", DYNAMIC_AUTH_TOKEN := "token-1" }

/-- The session `env0` authenticates to. -/
def sess0 : Session := { credential := "token-1", environmentId := "env-1" }

/-- A state in which `token-1` is accepted but no account or share exists. -/
def st0 : ServiceState :=
  { validTokens := ["token-1"], accounts := [], shareStore := [], nextKey := 0 }

/-- A password-protected account living in `env-1`. -/
def acct1 : WalletAccount :=
  { accountAddress := "0x7", walletId := "wallet-7", publicKeyHex := "047"
    environmentId := "env-1", keyId := 7, password := some "pw-P" }

/-- The local share for `acct1`. -/
def shr1 : ShareRecord :=
  { walletId := "wallet-7", shareMaterial := 7, backedUp := true }

/-- A state in which this client holds `acct1` and its share. -/
def st1 : ServiceState :=
  { validTokens := ["token-1"], accounts := [acct1], shareStore := [shr1], nextKey := 8 }

/-! ## Claim theorems -/

/-- C1: for every account address for which the Share Store holds no
ShareRecord, `sign` fails with `NoLocalShare` and never runs the signing
ceremony (so no signature material, partial or otherwise, is produced),
regardless of the password supplied. -/
theorem sign_noLocalShare_rejects (st : ServiceState) (counterpartyUp : Bool)
    (sess : Session) (accountAddress message : String) (password : Option String)
    (hA : sessionValid st sess = true)
    (hE : envScoped st sess accountAddress = true)
    (hN : noLocalShareFor st accountAddress = true) :
    (sign st counterpartyUp sess accountAddress message password).result =
      .error .NoLocalShare ∧
    (sign st counterpartyUp sess accountAddress message password).ceremonyRan = false := by
  unfold noLocalShareFor at hN
  unfold envScoped at hE
  cases hF : findAccount st accountAddress with
  | none => simp [sign, hA, hF]
  | some acct =>
    rw [hF] at hN hE
    simp only [Bool.not_eq_true', beq_iff_eq] at hN hE
    simp [sign, hA, hF, hE, hN]

/-- Witness for C1: in a state holding no account or share, signing with an
arbitrary address and password fails with `NoLocalShare` and no ceremony. -/
theorem sign_noLocalShare_rejects_witness :
    (sign st0 true sess0 "0xdead" "msg" (some "pw")).result =
      .error .NoLocalShare ∧
    (sign st0 true sess0 "0xdead" "msg" (some "pw")).ceremonyRan = false :=
  sign_noLocalShare_rejects st0 true sess0 "0xdead" "msg" (some "pw")
    (by decide) (by decide) (by decide)

/-- C3: `sign` checks its preconditions in the fixed order (a) session valid
and environment-scoped to the account, (b) local ShareRecord exists, (c)
password matches; in particular a wrong password yields `PasswordMismatch`
with the ceremony never run, an invalid session yields `Unauthenticated`
before anything else, and a missing share yields `NoLocalShare` before the
password is consulted. -/
theorem sign_preconditions_ordered (st : ServiceState) (counterpartyUp : Bool)
    (sess : Session) (accountAddress message : String) (password : Option String) :
    (sessionValid st sess = false →
      sign st counterpartyUp sess accountAddress message password =
        ⟨.error .Unauthenticated, false⟩)
  ∧ (sessionValid st sess = true → envScoped st sess accountAddress = false →
      sign st counterpartyUp sess accountAddress message password =
        ⟨.error .Unauthenticated, false⟩)
  ∧ (sessionValid st sess = true → envScoped st sess accountAddress = true →
      noLocalShareFor st accountAddress = true →
      sign st counterpartyUp sess accountAddress message password =
        ⟨.error .NoLocalShare, false⟩)
  ∧ (∀ acct P, sessionValid st sess = true →
      findAccount st accountAddress = some acct →
      acct.environmentId = sess.environmentId →
      hasShare st acct.walletId = true →
      acct.password = some P → password ≠ some P →
      sign st counterpartyUp sess accountAddress message password =
        ⟨.error .PasswordMismatch, false⟩) := by
  refine ⟨?_, ?_, ?_, ?_⟩
  · intro h
    simp [sign, h]
  · intro hA hE
    unfold envScoped at hE
    cases hF : findAccount st accountAddress with
    | none => rw [hF] at hE; simp at hE
    | some acct =>
      rw [hF] at hE
      simp only [beq_eq_false_iff_ne, ne_eq] at hE
      simp [sign, hA, hF, hE]
  · intro hA hE hN
    unfold noLocalShareFor at hN
    unfold envScoped at hE
    cases hF : findAccount st accountAddress with
    | none => simp [sign, hA, hF]
    | some acct =>
      rw [hF] at hN hE
      simp only [Bool.not_eq_true', beq_iff_eq] at hN hE
      simp [sign, hA, hF, hE, hN]
  · intro acct P hA hF hE hS hP hQ
    simp [sign, hA, hF, hE, hS, hP, hQ]

/-- Witness for C3: with the share present and the account created with
password `pw-P`, supplying `pw-Q` fails with `PasswordMismatch` and no
ceremony; and an invalid session fails with `Unauthenticated` first. -/
theorem sign_preconditions_ordered_witness :
    sign st1 true sess0 "0x7" "m" (some "pw-Q") =
      ⟨.error .PasswordMismatch, false⟩ ∧
    sign st1 true { credential := "bad", environmentId := "env-1" } "0x7" "m"
      (some "pw-P") = ⟨.error .Unauthenticated, false⟩ :=
  ⟨(sign_preconditions_ordered st1 true sess0 "0x7" "m" (some "pw-Q")).2.2.2
      acct1 "pw-P" (by decide) (by decide) (by decide) (by decide) (by decide)
      (by decide),
   (sign_preconditions_ordered st1 true
      { credential := "bad", environmentId := "env-1" } "0x7" "m"
      (some "pw-P")).1 (by decide)⟩

/-- A signature verifies against an account's address exactly when it is the
ceremony signature of that account over that message. -/
lemma verify_eq_true_iff (st : ServiceState) (accountAddress message : String)
    (signature : Signature) (acct : WalletAccount)
    (hF : findAccount st accountAddress = some acct) :
    verify st accountAddress message signature = true ↔
      signature = mkSig acct message := by
  cases signature with
  | mk k s =>
    simp [verify, hF, mkSig, Signature.mk.injEq, Bool.and_eq_true, beq_iff_eq]

/-- C2: for every message and every wallet created successfully, verifying
the signature produced by `sign` over that message with the wallet's account
address returns true. -/
theorem sign_verify_roundtrip (st : ServiceState) (sess : Session)
    (password : Option String) (backupServiceUp backupEnabled : Bool)
    (message : String) (o : CreationOutcome)
    (hA : sessionValid st sess = true)
    (hC : createAccount st true backupServiceUp sess .TWO_OF_TWO password
      backupEnabled = .ok o) :
    ∃ sig, (sign o.newState true sess o.account.accountAddress message
        password).result = .ok sig ∧
      verify o.newState o.account.accountAddress message sig = true := by
  simp only [createAccount, Bool.true_eq_false, if_false, Except.ok.injEq] at hC
  subst hC
  have hA' : sess.credential ∈ st.validTokens := by
    simpa [sessionValid] using hA
  cases password <;>
    simp [sign, verify, sessionValid, findAccount, hasShare, runSigningCeremony,
      mkSig, hA']

/-- The account minted by the witness creation below. -/
def acct0 : WalletAccount :=
  { accountAddress := "0x0", walletId := "wallet-0", publicKeyHex := "040"
    environmentId := "env-1", keyId := 0, password := some "pw" }

/-- The outcome of creating a wallet from `st0` with password `pw` and a
reachable backup service. -/
def o0 : CreationOutcome :=
  { account := acct0
    newState :=
      { validTokens := ["token-1"], accounts := [acct0]
        shareStore := [{ walletId := "wallet-0", shareMaterial := 0, backedUp := true }]
        nextKey := 1 }
    reported := none }

/-- Witness for C2: the wallet created from `st0` signs `hello` and the
signature verifies. -/
theorem sign_verify_roundtrip_witness :
    ∃ sig, (sign o0.newState true sess0 o0.account.accountAddress "hello"
        (some "pw")).result = .ok sig ∧
      verify o0.newState o0.account.accountAddress "hello" sig = true :=
  sign_verify_roundtrip st0 sess0 (some "pw") true true "hello" o0
    (by decide) (by rfl)

/-- C4: when the DKG ceremony succeeds but the backup upload fails,
`createAccount` still returns a usable account, reports `BackupFailed`,
inserts exactly one ShareRecord (flagged `backedUp := false`) into the Share
Store, and a subsequent `sign` against the account succeeds. -/
theorem createAccount_backupFailed_nonfatal (st : ServiceState) (sess : Session)
    (password : Option String) (message : String)
    (hA : sessionValid st sess = true) :
    ∃ o, createAccount st true false sess .TWO_OF_TWO password true = .ok o ∧
      o.reported = some .BackupFailed ∧
      o.newState.shareStore =
        { walletId := o.account.walletId, shareMaterial := st.nextKey
          backedUp := false } :: st.shareStore ∧
      (sign o.newState true sess o.account.accountAddress message password).result =
        .ok (mkSig o.account message) := by
  refine ⟨_, rfl, rfl, rfl, ?_⟩
  have hA' : sess.credential ∈ st.validTokens := by
    simpa [sessionValid] using hA
  cases password <;>
    simp [sign, sessionValid, findAccount, hasShare, runSigningCeremony,
      createAccount, mkSig, hA']

/-- Witness for C4: concrete backup-failure creation from `st0`. -/
theorem createAccount_backupFailed_nonfatal_witness :
    ∃ o, createAccount st0 true false sess0 .TWO_OF_TWO (some "pw") true = .ok o ∧
      o.reported = some .BackupFailed ∧
      o.newState.shareStore =
        { walletId := o.account.walletId, shareMaterial := st0.nextKey
          backedUp := false } :: st0.shareStore ∧
      (sign o.newState true sess0 o.account.accountAddress "hello"
        (some "pw")).result = .ok (mkSig o.account "hello") :=
  createAccount_backupFailed_nonfatal st0 sess0 (some "pw") "hello" (by decide)

/-- C7: `verify` is total — it returns a boolean on every input — and it
returns false, not an error, whenever the message differs from the signed
message or the signature is mutated away from the account's ceremony
signature (malformed signatures included). -/
theorem verify_total_rejects_tampering (st : ServiceState)
    (accountAddress message : String) (signature : Signature) :
    (verify st accountAddress message signature = true ∨
     verify st accountAddress message signature = false)
  ∧ (∀ acct, findAccount st accountAddress = some acct →
      (∀ m', m' ≠ message →
        verify st accountAddress m' (mkSig acct message) = false)
    ∧ (∀ sig', sig' ≠ mkSig acct message →
        verify st accountAddress message sig' = false)) := by
  refine ⟨?_, fun acct hF => ⟨?_, ?_⟩⟩
  · cases h : verify st accountAddress message signature
    · exact Or.inr rfl
    · exact Or.inl rfl
  · intro m' hm
    rw [Bool.eq_false_iff]
    intro h
    rw [verify_eq_true_iff st accountAddress m' (mkSig acct message) acct hF] at h
    exact hm (congrArg Signature.signedMsg h).symm
  · intro sig' hs
    rw [Bool.eq_false_iff]
    intro h
    rw [verify_eq_true_iff st accountAddress message sig' acct hF] at h
    exact hs h

/-- Witness for C7: in the populated state `st1`, verification of the genuine
signature over a different message fails, and of a mutated signature fails. -/
theorem verify_total_rejects_tampering_witness :
    verify st1 "0x7" "other" (mkSig acct1 "m") = false ∧
    verify st1 "0x7" "m" { keyId := 8, signedMsg := "m" } = false :=
  ⟨((verify_total_rejects_tampering st1 "0x7" "m" (mkSig acct1 "m")).2 acct1
      (by decide)).1 "other" (by decide),
   ((verify_total_rejects_tampering st1 "0x7" "m" (mkSig acct1 "m")).2 acct1
      (by decide)).2 { keyId := 8, signedMsg := "m" } (by decide)⟩

/-- An account living in a different environment (`env-2`), whose share this
client does not hold. -/
def acctOther : WalletAccount :=
  { accountAddress := "0xdead", walletId := "wallet-99", publicKeyHex := "0499"
    environmentId := "env-2", keyId := 99, password := none }

/-- A state in which `0xdead` exists but belongs to another environment and
has no local share. -/
def stC6 : ServiceState :=
  { validTokens := ["token-1"], accounts := [acctOther], shareStore := [], nextKey := 100 }

/-- A reachable chain with concrete gas parameters. -/
def chain0 : ChainState := { up := true, gas := 21000, gasPrice := 5 }

/-- A chain client whose balance query always succeeds. -/
def balOk : String → Except String Nat := fun _ => .ok 0

/-- A chain client whose balance query always fails. -/
def balDown : String → Except String Nat := fun _ => .error "rpc down"

/-- Counterexample to C5: in `st0` the address `0xdead` has no ShareRecord, so
the SDK `sign` fails with the authorization error `NoLocalShare`; yet
`signMessage` returns `.ok ()` to its caller — the security-relevant error is
caught and only logged, not surfaced. -/
theorem signMessage_swallows_noLocalShare_cx :
    (sign st0 true sess0 "0xdead" "Hello from wallet 0xdead at t0"
      (some "pw")).result = .error .NoLocalShare ∧
    (signMessage st0 true sess0 "0xdead" "pw" "t0").result = .ok () ∧
    (signMessage st0 true sess0 "0xdead" "pw" "t0").logs =
      ["❌ Message signing failed: NoLocalShare"] :=
  ⟨rfl, rfl, rfl⟩

/-- C5 as amended: `createNewWallet` and `initializeExistingWallet` rethrow
the errors they catch verbatim to their caller, but `signMessage`,
`checkBalance`, `prepareTransaction` and `performWalletOperations` catch
every error — authorization failures included — and report it only on the
console, always returning normally; no operation mutates the Share Store or
the Session on failure (only a successful creation yields a new state). -/
theorem errors_logged_not_propagated (env : ProcEnv) (st : ServiceState)
    (counterpartyUp backupServiceUp : Bool) (chain : ChainState)
    (balanceOf : String → Except String Nat) (sess : Session)
    (password : Option String) (walletAddress pw now : String) :
    ((signMessage st counterpartyUp sess walletAddress pw now).result = .ok ())
  ∧ ((checkBalance balanceOf walletAddress).result = .ok ())
  ∧ (((prepareTransaction chain st walletAddress).1).result = .ok ())
  ∧ ((performWalletOperations env st counterpartyUp chain balanceOf
      walletAddress pw now).result = .ok ())
  ∧ (∀ e, (authenticatedEvmClient env st).result = .error e →
      (createNewWallet env st counterpartyUp backupServiceUp password).result =
        .error (.auth e))
  ∧ (∀ m, balanceOf walletAddress = .error m →
      (authenticatedEvmClient env st).result.isOk = true →
      (initializeExistingWallet env st balanceOf walletAddress).result =
        .error ("Wallet verification failed: " ++ m)) := by
  refine ⟨?_, ?_, ?_, ?_, ?_, ?_⟩
  · cases h : (sign st counterpartyUp sess walletAddress
      ("Hello from wallet " ++ walletAddress ++ " at " ++ now) (some pw)).result <;>
      simp [signMessage, h]
  · cases h : balanceOf walletAddress <;> simp [checkBalance, h]
  · cases h : prepareTransactionRequest chain nullAddress demoValueWei walletAddress <;>
      simp [prepareTransaction, h]
  · cases h : sessionValid st
      { credential := env.DYNAMIC_AUTH_TOKEN
        environmentId := env.DYNAMIC_ENVIRONMENT_ID } <;>
      simp [performWalletOperations, authenticatedEvmClient, h]
  · intro e he
    cases h : sessionValid st
      { credential := env.DYNAMIC_AUTH_TOKEN
        environmentId := env.DYNAMIC_ENVIRONMENT_ID } <;>
      simp [authenticatedEvmClient, h] at he <;>
      simp [createNewWallet, authenticatedEvmClient, h, he]
  · intro m hm hok
    cases h : sessionValid st
      { credential := env.DYNAMIC_AUTH_TOKEN
        environmentId := env.DYNAMIC_ENVIRONMENT_ID }
    · simp [authenticatedEvmClient, h, Except.isOk, Except.toBool] at hok
    · simp [initializeExistingWallet, authenticatedEvmClient, h,
        checkWalletExists, hm]

/-- Witness for C5 (amended): with an invalid token, `createNewWallet`
propagates the authentication error verbatim, and with the chain down,
`initializeExistingWallet` propagates the generic verification error. -/
theorem errors_logged_not_propagated_witness :
    (createNewWallet { DYNAMIC_ENVIRONMENT_ID := "env-1", DYNAMIC_AUTH_TOKEN := "bad" }
      st0 true true (some "pw")).result = .error (.auth "authentication failed") ∧
    (initializeExistingWallet env0 st0 balDown "0x7").result =
      .error ("Wallet verification failed: rpc down") :=
  ⟨(errors_logged_not_propagated
      { DYNAMIC_ENVIRONMENT_ID := "env-1", DYNAMIC_AUTH_TOKEN := "bad" }
      st0 true true chain0 balOk sess0 (some "pw") "0x7" "pw" "t0").2.2.2.2.1
      "authentication failed" rfl,
   (errors_logged_not_propagated env0 st0 true true chain0 balDown sess0
      (some "pw") "0x7" "pw" "t0").2.2.2.2.2 "rpc down" rfl rfl⟩

/-- Counterexample to C6: in `stC6` the account `0xdead` exists but belongs
to environment `env-2` and this client holds no share for it; yet
`initializeExistingWallet` under the `env-1` session succeeds whenever the
balance query succeeds — no `Unauthorized` is ever produced — and when the
query fails it fails with a generic `Wallet verification failed` error, not
`Unauthorized` or `NotFound`. -/
theorem initializeExistingWallet_no_authz_cx :
    findAccount stC6 "0xdead" = some acctOther ∧
    envScoped stC6 sess0 "0xdead" = false ∧
    noLocalShareFor stC6 "0xdead" = true ∧
    (initializeExistingWallet env0 stC6 balOk "0xdead").result =
      .ok (sess0, "0xdead") ∧
    (initializeExistingWallet env0 stC6 balDown "0xdead").result =
      .error ("Wallet verification failed: rpc down") :=
  ⟨rfl, by decide, by decide, rfl, rfl⟩

/-- C6 as amended: `initializeExistingWallet` verifies an address only
through a chain balance query — it succeeds for any address whose balance
can be fetched, with no share or authorization check, and a failed query
surfaces as the generic `Wallet verification failed: ...` error, never a
typed `Unauthorized`/`NotFound`; it never creates new key material (no DKG
ceremony is run). -/
theorem initializeExistingWallet_balance_only (env : ProcEnv) (st : ServiceState)
    (balanceOf : String → Except String Nat) (walletAddress : String) :
    (∀ sess, (authenticatedEvmClient env st).result = .ok sess →
      (∀ b, balanceOf walletAddress = .ok b →
        (initializeExistingWallet env st balanceOf walletAddress).result =
          .ok (sess, walletAddress))
    ∧ (∀ m, balanceOf walletAddress = .error m →
        (initializeExistingWallet env st balanceOf walletAddress).result =
          .error ("Wallet verification failed: " ++ m)))
  ∧ (∀ e, (authenticatedEvmClient env st).result = .error e →
      (initializeExistingWallet env st balanceOf walletAddress).result = .error e)
  ∧ (∀ w, Event.dkgCeremony w ∉
      (initializeExistingWallet env st balanceOf walletAddress).events) := by
  refine ⟨?_, ?_, ?_⟩
  · intro sess hsess
    cases h : sessionValid st
      { credential := env.DYNAMIC_AUTH_TOKEN
        environmentId := env.DYNAMIC_ENVIRONMENT_ID }
    · simp [authenticatedEvmClient, h] at hsess
    · simp [authenticatedEvmClient, h] at hsess
      subst hsess
      constructor
      · intro b hb
        simp [initializeExistingWallet, authenticatedEvmClient, h,
          checkWalletExists, hb]
      · intro m hm
        simp [initializeExistingWallet, authenticatedEvmClient, h,
          checkWalletExists, hm]
  · intro e he
    cases h : sessionValid st
      { credential := env.DYNAMIC_AUTH_TOKEN
        environmentId := env.DYNAMIC_ENVIRONMENT_ID } <;>
      simp [authenticatedEvmClient, h] at he <;>
      simp [initializeExistingWallet, authenticatedEvmClient, h, he]
  · intro w
    cases h : sessionValid st
      { credential := env.DYNAMIC_AUTH_TOKEN
        environmentId := env.DYNAMIC_ENVIRONMENT_ID }
    · simp [initializeExistingWallet, authenticatedEvmClient, h]
    · cases hb : balanceOf walletAddress <;>
        simp [initializeExistingWallet, authenticatedEvmClient, h,
          checkWalletExists, hb]

/-- Witness for C6 (amended): concrete successful and failing balance
queries under `env0`. -/
theorem initializeExistingWallet_balance_only_witness :
    (initializeExistingWallet env0 st0 balOk "0xabc").result =
      .ok (sess0, "0xabc") ∧
    (initializeExistingWallet env0 st0 balDown "0xabc").result =
      .error ("Wallet verification failed: rpc down") :=
  ⟨((initializeExistingWallet_balance_only env0 st0 balOk "0xabc").1 sess0
      rfl).1 0 rfl,
   ((initializeExistingWallet_balance_only env0 st0 balDown "0xabc").1 sess0
      rfl).2 "rpc down" rfl⟩

/-- C8: `prepareTransaction` is deterministic — against the same chain state
it yields structurally identical results (same `to`, same `value`) no matter
what the account/share state is or how often it is called — it never invokes
the signing coordinator, and on a reachable chain it produces the fixed demo
skeleton filled with the current gas parameters. -/
theorem prepareTransaction_deterministic_no_signing (chain : ChainState)
    (st st' : ServiceState) (walletAddress : String) :
    prepareTransaction chain st walletAddress =
      prepareTransaction chain st' walletAddress
  ∧ (∀ a m, Event.signCall a m ∉
      ((prepareTransaction chain st walletAddress).1).events)
  ∧ (chain.up = true →
      (prepareTransaction chain st walletAddress).2 =
        some { toAddr := nullAddress, value := demoValueWei, gas := chain.gas
               gasPrice := chain.gasPrice, account := walletAddress }) := by
  refine ⟨rfl, ?_, ?_⟩
  · intro a m
    cases h : prepareTransactionRequest chain nullAddress demoValueWei walletAddress <;>
      simp [prepareTransaction, h]
  · intro hup
    simp [prepareTransaction, prepareTransactionRequest, hup]

/-- Witness for C8: on the concrete chain `chain0` the prepared skeleton is
the fixed demo transaction with `chain0`'s gas parameters. -/
theorem prepareTransaction_deterministic_no_signing_witness :
    (prepareTransaction chain0 st0 "0x7").2 =
      some { toAddr := nullAddress, value := demoValueWei, gas := 21000
             gasPrice := 5, account := "0x7" } :=
  (prepareTransaction_deterministic_no_signing chain0 st0 st1 "0x7").2.2 rfl

/-- C9: every wallet operation authenticates its own fresh session — the
first external call each of `createNewWallet`, `initializeExistingWallet`
and `performWalletOperations` makes is an authentication of the configured
token for the configured environment (no process-wide session cache), and
any session so obtained is valid and scoped to the configured environment. -/
theorem operations_authenticate_per_call (env : ProcEnv) (st : ServiceState)
    (counterpartyUp backupServiceUp : Bool) (chain : ChainState)
    (balanceOf : String → Except String Nat) (password : Option String)
    (walletAddress pw now : String) :
    ((createNewWallet env st counterpartyUp backupServiceUp password).events.head? =
      some (.authenticate env.DYNAMIC_AUTH_TOKEN env.DYNAMIC_ENVIRONMENT_ID))
  ∧ ((initializeExistingWallet env st balanceOf walletAddress).events.head? =
      some (.authenticate env.DYNAMIC_AUTH_TOKEN env.DYNAMIC_ENVIRONMENT_ID))
  ∧ ((performWalletOperations env st counterpartyUp chain balanceOf
      walletAddress pw now).events.head? =
      some (.authenticate env.DYNAMIC_AUTH_TOKEN env.DYNAMIC_ENVIRONMENT_ID))
  ∧ (∀ sess, (authenticatedEvmClient env st).result = .ok sess →
      sess.environmentId = env.DYNAMIC_ENVIRONMENT_ID ∧
      sess.credential = env.DYNAMIC_AUTH_TOKEN ∧
      sessionValid st sess = true) := by
  refine ⟨?_, ?_, ?_, ?_⟩
  · cases h : sessionValid st
      { credential := env.DYNAMIC_AUTH_TOKEN
        environmentId := env.DYNAMIC_ENVIRONMENT_ID }
    · simp [createNewWallet, authenticatedEvmClient, h]
    · cases hC : createAccount st counterpartyUp backupServiceUp
        { credential := env.DYNAMIC_AUTH_TOKEN
          environmentId := env.DYNAMIC_ENVIRONMENT_ID }
        (createWalletRequest password).thresholdSignatureScheme
        (some (createWalletRequest password).password)
        (createWalletRequest password).backUpToClientShareService <;>
        simp [createNewWallet, authenticatedEvmClient, h, hC]
  · cases h : sessionValid st
      { credential := env.DYNAMIC_AUTH_TOKEN
        environmentId := env.DYNAMIC_ENVIRONMENT_ID }
    · simp [initializeExistingWallet, authenticatedEvmClient, h]
    · cases hb : balanceOf walletAddress <;>
        simp [initializeExistingWallet, authenticatedEvmClient, h,
          checkWalletExists, hb]
  · cases h : sessionValid st
      { credential := env.DYNAMIC_AUTH_TOKEN
        environmentId := env.DYNAMIC_ENVIRONMENT_ID } <;>
      simp [performWalletOperations, authenticatedEvmClient, h]
  · intro sess hsess
    cases h : sessionValid st
      { credential := env.DYNAMIC_AUTH_TOKEN
        environmentId := env.DYNAMIC_ENVIRONMENT_ID }
    · simp [authenticatedEvmClient, h] at hsess
    · simp [authenticatedEvmClient, h] at hsess
      subst hsess
      exact ⟨rfl, rfl, h⟩

/-- Witness for C9: under `env0`/`st0` each operation's first external call
is the authentication, and the returned session is `env-1`-scoped and
valid. -/
theorem operations_authenticate_per_call_witness :
    (createNewWallet env0 st0 true true (some "pw")).events.head? =
      some (.authenticate "token-1" "env-1") ∧
    sess0.environmentId = env0.DYNAMIC_ENVIRONMENT_ID ∧
    sess0.credential = env0.DYNAMIC_AUTH_TOKEN ∧
    sessionValid st0 sess0 = true :=
  ⟨(operations_authenticate_per_call env0 st0 true true chain0 balOk
      (some "pw") "0x7" "pw" "t0").1,
   (operations_authenticate_per_call env0 st0 true true chain0 balOk
      (some "pw") "0x7" "pw" "t0").2.2.2 sess0 rfl⟩

/-- C10: every wallet created through `createNewWallet` uses the fixed
2-of-2 scheme with backup to the share service enabled and is always
password-protected: the parameter object it passes to the SDK has
`thresholdSignatureScheme = TWO_OF_TWO`, `backUpToClientShareService = true`,
and a non-empty password — the default `your-secure-password` substituted
when the caller supplies none — and any account it creates carries that
password. -/
theorem createNewWallet_fixed_scheme_backup_password (password : Option String) :
    (createWalletRequest password).thresholdSignatureScheme = .TWO_OF_TWO
  ∧ (createWalletRequest password).backUpToClientShareService = true
  ∧ (password = none →
      (createWalletRequest password).password = "your-secure-password")
  ∧ (createWalletRequest password).password ≠ ""
  ∧ (∀ env st backupServiceUp wi st',
      (createNewWallet env st true backupServiceUp password).result = .ok (wi, st') →
      ∃ acct, st'.accounts.head? = some acct ∧
        acct.password = some (createWalletRequest password).password) := by
  refine ⟨rfl, rfl, ?_, ?_, ?_⟩
  · intro h
    subst h
    rfl
  · cases password with
    | none => simp [createWalletRequest]
    | some p =>
      by_cases hp : p = "" <;> simp [createWalletRequest, hp]
  · intro env st backupServiceUp wi st' hok
    cases h : sessionValid st
      { credential := env.DYNAMIC_AUTH_TOKEN
        environmentId := env.DYNAMIC_ENVIRONMENT_ID }
    · simp [createNewWallet, authenticatedEvmClient, h] at hok
    · simp [createNewWallet, authenticatedEvmClient, h, createAccount] at hok
      obtain ⟨-, hst⟩ := hok
      subst hst
      exact ⟨_, rfl, rfl⟩

/-- Witness for C10: no supplied password yields the fixed default, and the
account created from `st0` with password `pw` carries exactly that
password. -/
theorem createNewWallet_fixed_scheme_backup_password_witness :
    (createWalletRequest none).password = "your-secure-password" ∧
    ∃ acct, o0.newState.accounts.head? = some acct ∧
      acct.password = some (createWalletRequest (some "pw")).password :=
  ⟨(createNewWallet_fixed_scheme_backup_password none).2.2.1 rfl,
   (createNewWallet_fixed_scheme_backup_password (some "pw")).2.2.2.2 env0 st0
     true { accountAddress := "0x0", walletId := "wallet-0", publicKeyHex := "040" }
     o0.newState rfl⟩

end DynamicWallet
